import Mathlib

/-!
Verification of the World Bank Documents & Reports MCP adapter
(`worldbank_dnr_mcp`): a shallow embedding of its parsers, formatters,
parameter builder, truncation post-process and tool-operation bodies,
with theorems checking the natural-language specification against them.

Python dictionaries are modelled as association lists in insertion order
(CPython dictionaries preserve insertion order); JSON values as the
inductive `Json`; Python `None` as `Json.null`.  Fallible dynamic code
(attribute errors on non-dictionary values) is modelled with `Option`.
-/

inductive Json where
  | null
  | bool (b : Bool)
  | num (n : Int)
  | str (s : String)
  | arr (xs : List Json)
  | obj (fields : List (String × Json))

/-- First-match association-list lookup, the model of Python dictionary
indexing for duplicate-free key lists. -/
def jlookup (l : List (String × Json)) (k : String) : Option Json :=
  match l with
  | [] => none
  | (k₀, v) :: rest => if k₀ = k then some v else jlookup rest k

/-- Model of Python `d.get(k, dflt)` on a dictionary. -/
def pyDictGet (d : List (String × Json)) (k : String) (dflt : Json) : Json :=
  (jlookup d k).getD dflt

/-- Model of Python `d.update(kwargs)`: existing keys are overwritten in
place, new keys are appended in order. -/
def pyUpdate (base kwargs : List (String × Json)) : List (String × Json) :=
  base.map (fun kv => match jlookup kwargs kv.1 with
    | some v => (kv.1, v)
    | none => kv)
  ++ kwargs.filter (fun kv => (jlookup base kv.1).isNone)

/-- Is the value a JSON object?  Model of Python `isinstance(x, dict)`. -/
def Json.isObj : Json → Bool
  | .obj _ => true
  | _ => false

/-- Is the value a JSON array?  Model of Python `isinstance(x, list)`. -/
def Json.isArr : Json → Bool
  | .arr _ => true
  | _ => false

/-- Model of Python truthiness (`if x:`) on JSON-representable values. -/
def pyTruthy : Json → Bool
  | .null => false
  | .bool b => b
  | .num n => !(n == 0)
  | .str s => !(s == "")
  | .arr xs => !xs.isEmpty
  | .obj fs => !fs.isEmpty

/-- Model of Python `x == lit` where `lit` is a string literal: true only
when `x` is that very string. -/
def jEqStr (j : Json) (s : String) : Bool :=
  match j with
  | .str t => t == s
  | _ => false

/-- Model of Python `x == 0` (total in Python: non-numbers simply compare
unequal; `False == 0` holds because `bool` is an `int` subclass). -/
def jEqZero : Json → Bool
  | .num n => n == 0
  | .bool b => !b
  | _ => false

/-- Integer content of a JSON value, defaulting to 0.  Used where the code
does arithmetic or numeric formatting on an API field that is an integer
per the API contract (Python would raise on anything else). -/
def jAsInt : Json → Int
  | .num n => n
  | _ => 0

/-- Elements of a JSON array, defaulting to the empty list.  Used where the
code calls `len()` on / indexes into an API field that is a list per the
API contract (Python would raise on anything else). -/
def jItems : Json → List Json
  | .arr xs => xs
  | _ => []

/-- Fields of a JSON object, defaulting to the empty list. -/
def jFields : Json → List (String × Json)
  | .obj fs => fs
  | _ => []

/-- Model of Python `doc.get(k, dflt)` on a document record.  A non-object
record is unreachable in the code paths studied (Python would raise). -/
def jget (doc : Json) (k : String) (dflt : Json) : Json :=
  match doc with
  | .obj fs => (jlookup fs k).getD dflt
  | _ => dflt

/-- Model of Python `doc.get(k₁, doc.get(k₂, dflt))`, the two-key fallback
chain used for title and identifier fields. -/
def jget2 (doc : Json) (k₁ k₂ : String) (dflt : Json) : Json :=
  match doc with
  | .obj fs => (jlookup fs k₁).getD ((jlookup fs k₂).getD dflt)
  | _ => dflt

/-- Truthiness of an optional string input field (`if params.query:`):
present and non-empty. -/
def optStrTruthy : Option String → Bool
  | some s => !(s == "")
  | none => false

/-- Truthiness of an optional list input field (`if params.countries:`):
present and non-empty. -/
def optListTruthy {α : Type} : Option (List α) → Bool
  | some (_ :: _) => true
  | _ => false

-- ============================================================================
-- parsers.py
-- ============================================================================

/-- Embedding of `parse_stdio_response` (parsers.py).  Shape A: documents
are a mapping keyed by document id; the reserved `facets` key and
non-dictionary values are excluded; total from the top-level `total`
field.  `none` models the `AttributeError` Python raises when the
`documents` value is not a dictionary. -/
def parse_stdio_response (response : List (String × Json)) :
    Option (List Json × Json) :=
  match pyDictGet response "documents" (Json.obj []) with
  | Json.obj fields =>
      some ((fields.filter
              (fun kv => !(kv.1 == "facets") && kv.2.isObj)).map Prod.snd,
            pyDictGet response "total" (Json.num 0))
  | _ => none

/-- Embedding of `parse_sse_response` (parsers.py).  Shape B: documents are
an object holding a `docs` array and a `numFound` count.  `none` models
the failure on a non-dictionary `documents` value; a present `docs` value
that is not a list is also mapped to `none`, since every caller
immediately iterates it as a list. -/
def parse_sse_response (response : List (String × Json)) :
    Option (List Json × Json) :=
  match pyDictGet response "documents" (Json.obj []) with
  | Json.obj fields =>
      match jlookup fields "docs" with
      | some (Json.arr xs) =>
          some (xs, pyDictGet fields "numFound" (Json.num 0))
      | some _ => none
      | none => some ([], pyDictGet fields "numFound" (Json.num 0))
  | _ => none

/-- Embedding of `parse_default_response` (parsers.py): tries Shape B when
a `docs` key is present, otherwise falls back to Shape A. -/
def parse_default_response (response : List (String × Json)) :
    Option (List Json × Json) :=
  match pyDictGet response "documents" (Json.obj []) with
  | Json.obj fields =>
      if (jlookup fields "docs").isSome then parse_sse_response response
      else parse_stdio_response response
  | _ => parse_stdio_response response

-- ============================================================================
-- Python string rendering helpers
-- ============================================================================

mutual

/-- Model of Python `str(x)` as used inside f-strings: strings render bare,
`None` as `None`, booleans capitalised, containers via `repr` of their
elements. -/
def pyStr : Json → String
  | .null => "None"
  | .bool b => if b then "True" else "False"
  | .num n => toString n
  | .str s => s
  | .arr xs => "[" ++ pyReprItems xs ++ "]"
  | .obj fs => "\x7b" ++ pyReprFields fs ++ "\x7d"

/-- Model of Python `repr(x)` for JSON-representable values (strings are
quoted). -/
def pyRepr : Json → String
  | .null => "None"
  | .bool b => if b then "True" else "False"
  | .num n => toString n
  | .str s => "\x27" ++ s ++ "\x27"
  | .arr xs => "[" ++ pyReprItems xs ++ "]"
  | .obj fs => "\x7b" ++ pyReprFields fs ++ "\x7d"

def pyReprItems : List Json → String
  | [] => ""
  | [x] => pyRepr x
  | x :: xs => pyRepr x ++ ", " ++ pyReprItems xs

def pyReprFields : List (String × Json) → String
  | [] => ""
  | [(k, v)] => "\x27" ++ k ++ "\x27: " ++ pyRepr v
  | (k, v) :: fs => "\x27" ++ k ++ "\x27: " ++ pyRepr v ++ ", " ++ pyReprFields fs

end

/-- Model of the comma-join idiom used by the formatters (join when the
value is a list, pass it through otherwise): a list of strings is joined
with the separator, any other value passes through via `str` (Python would
raise on a genuinely non-iterable value; that path is unreachable in the
code studied). -/
def pyJoinList (sep : String) (j : Json) : String :=
  match j with
  | .arr xs => String.intercalate sep (xs.map pyStr)
  | _ => pyStr j

/-- Insert a thousands separator into a reversed digit list (helper for
`pyCommaInt`). -/
def chunk3 : List Char → List Char
  | a :: b :: c :: d :: rest => a :: b :: c :: ',' :: chunk3 (d :: rest)
  | l => l

/-- Model of the Python thousands-separated integer format: decimal digits
grouped in threes by commas. -/
def pyCommaInt (n : Int) : String :=
  if n < 0 then "-" ++ String.mk (chunk3 (toString n.natAbs).data.reverse).reverse
  else String.mk (chunk3 (toString n.natAbs).data.reverse).reverse

/-- Thousands-separated rendering of a parsed total field (an integer per
the API contract; non-integers are rendered coarsely via `str`, where
Python would raise). -/
def pyCommaFmt (j : Json) : String :=
  match j with
  | .num n => pyCommaInt n
  | _ => pyStr j

/-- Model of Python `a or dflt` on an optional string, used in f-strings:
falsy (absent or empty) falls through to the default. -/
def pyOrStr (o : Option String) (dflt : String) : String :=
  match o with
  | some s => if s == "" then dflt else s
  | none => dflt

/-- Model of Python `a or b` on two optional strings, rendered by an
f-string afterwards (`None` renders as `None`). -/
def pyOrOpt (a b : Option String) : String :=
  if optStrTruthy a then a.getD ""
  else match b with
    | some s => s
    | none => "None"

-- ============================================================================
-- Model of json.dumps(..., indent=2)
-- ============================================================================

/-- Minimal JSON string escaping (model of Python `json.dumps` escaping for
the characters that matter here). -/
def pyJsonEscape (s : String) : String :=
  String.join (s.data.map (fun c =>
    if c = '"' then "\\\""
    else if c = '\\' then "\\\\"
    else if c = '\n' then "\\n"
    else if c = '\t' then "\\t"
    else if c = '\r' then "\\r"
    else String.mk [c]))

def indentStr (lvl : Nat) : String :=
  String.mk (List.replicate (2 * lvl) ' ')

mutual

/-- Model of Python `json.dumps(x, indent=2)` at nesting level `lvl`. -/
def jsonDumps (lvl : Nat) : Json → String
  | .null => "null"
  | .bool b => if b then "true" else "false"
  | .num n => toString n
  | .str s => "\"" ++ pyJsonEscape s ++ "\""
  | .arr [] => "[]"
  | .arr (x :: xs) =>
      "[\n" ++ jsonDumpsItems (lvl + 1) (x :: xs) ++ "\n" ++ indentStr lvl ++ "]"
  | .obj [] => "\x7b\x7d"
  | .obj (f :: fs) =>
      "\x7b\n" ++ jsonDumpsFields (lvl + 1) (f :: fs) ++ "\n" ++ indentStr lvl ++ "\x7d"

def jsonDumpsItems (lvl : Nat) : List Json → String
  | [] => ""
  | [x] => indentStr lvl ++ jsonDumps lvl x
  | x :: xs => indentStr lvl ++ jsonDumps lvl x ++ ",\n" ++ jsonDumpsItems lvl xs

def jsonDumpsFields (lvl : Nat) : List (String × Json) → String
  | [] => ""
  | [(k, v)] => indentStr lvl ++ "\"" ++ pyJsonEscape k ++ "\": " ++ jsonDumps lvl v
  | (k, v) :: fs =>
      indentStr lvl ++ "\"" ++ pyJsonEscape k ++ "\": " ++ jsonDumps lvl v ++ ",\n"
      ++ jsonDumpsFields lvl fs

end

-- ============================================================================
-- core.py: constants, formatters, builder, truncation
-- ============================================================================

def CHARACTER_LIMIT : Nat := 25000

/-- Embedding of `format_document_markdown` (core.py): the text renderer
for one document record. -/
def format_document_markdown (doc : Json) : String :=
  let title := jget2 doc "display_title" "repnme" (Json.str "Untitled")
  let doc_date := jget doc "docdt" (Json.str "N/A")
  let doc_type := jget doc "docty" (Json.str "N/A")
  let doc_id := jget2 doc "id" "guid" (Json.str "N/A")
  let cnt := jget doc "count" (Json.arr [])
  let countries := if pyTruthy (jget doc "count" Json.null)
    then pyJoinList ", " cnt else "N/A"
  let abstract := jget doc "abstracts" (Json.str "No abstract available")
  let pdf_url := jget2 doc "pdfurl" "url" (Json.str "N/A")
  let report_num := jget doc "repnb" (Json.str "N/A")
  let md := "### " ++ pyStr title ++ "\n\n"
  let md := md ++ "**Document ID:** " ++ pyStr doc_id ++ "\n"
  let md := md ++ "**Report Number:** " ++ pyStr report_num ++ "\n"
  let md := md ++ "**Type:** " ++ pyStr doc_type ++ "\n"
  let md := md ++ "**Date:** " ++ pyStr doc_date ++ "\n"
  let md := md ++ "**Countries:** " ++ countries ++ "\n"
  let md := if pyTruthy (jget doc "lang" Json.null)
    then md ++ "**Languages:** " ++ pyJoinList ", " (jget doc "lang" Json.null) ++ "\n"
    else md
  let md := if pyTruthy (jget doc "majtheme" Json.null)
    then md ++ "**Major Themes:** " ++ pyJoinList ", " (jget doc "majtheme" Json.null) ++ "\n"
    else md
  let md := if pyTruthy abstract && !(jEqStr abstract "No abstract available")
    then md ++ "\n**Abstract:**\n" ++ pyStr abstract ++ "\n"
    else md
  let md := if pyTruthy pdf_url && !(jEqStr pdf_url "N/A")
    then md ++ "\n**PDF URL:** " ++ pyStr pdf_url ++ "\n"
    else md
  md ++ "\n---\n"

/-- Embedding of `format_document_json` (core.py): the structured renderer
for one document record, as the ordered field list of the returned
dictionary. -/
def format_document_json (doc : Json) : List (String × Json) :=
  [("id", jget2 doc "id" "guid" Json.null),
   ("title", jget2 doc "display_title" "repnme" Json.null),
   ("report_number", jget doc "repnb" Json.null),
   ("document_type", jget doc "docty" Json.null),
   ("document_date", jget doc "docdt" Json.null),
   ("countries", jget doc "count" (Json.arr [])),
   ("languages", jget doc "lang" (Json.arr [])),
   ("abstract", jget doc "abstracts" Json.null),
   ("major_themes", jget doc "majtheme" (Json.arr [])),
   ("topics", jget doc "topic" (Json.arr [])),
   ("pdf_url", jget doc "pdfurl" Json.null),
   ("url", jget doc "url" Json.null),
   ("project_id", jget doc "proid" Json.null),
   ("project_name", jget doc "projn" Json.null),
   ("sectors", jget doc "sectr_exact" (Json.arr [])),
   ("keywords", jget doc "keywd" (Json.arr [])),
   ("authors", jget doc "authr" (Json.arr []))]

/-- Embedding of `build_query_params` (core.py).  Optional arguments are in
source order; `kwargs` models the `**kwargs` mapping merged in last by
`params.update(kwargs)`. -/
def build_query_params (query : Option String)
    (countries document_types languages : Option (List String))
    (date_from date_to : Option String) (limit : Nat) (offset : Nat)
    (sort_by sort_order : Option String) (facets : Option (List String))
    (kwargs : List (String × Json)) : List (String × Json) :=
  pyUpdate
    ([("format", Json.str "json"), ("rows", Json.num limit), ("os", Json.num offset)]
     ++ (if optStrTruthy query then [("qterm", Json.str (query.getD ""))] else [])
     ++ (if optListTruthy countries
         then [("count_exact", Json.str (String.intercalate "^" (countries.getD [])))]
         else [])
     ++ (if optListTruthy document_types
         then [("docty_exact", Json.str (String.intercalate "^" (document_types.getD [])))]
         else [])
     ++ (if optListTruthy languages
         then [("lang_exact", Json.str (String.intercalate "^" (languages.getD [])))]
         else [])
     ++ (if optStrTruthy date_from then [("strdate", Json.str (date_from.getD ""))] else [])
     ++ (if optStrTruthy date_to then [("enddate", Json.str (date_to.getD ""))] else [])
     ++ (if optStrTruthy sort_by
         then [("srt", Json.str (sort_by.getD ""))]
              ++ (if optStrTruthy sort_order
                  then [("order", Json.str (sort_order.getD ""))] else [])
         else [])
     ++ (if optListTruthy facets
         then [("fct", Json.str (String.intercalate "," (facets.getD [])))] else []))
    kwargs

/-- The truncation notice appended by `truncate_if_needed`, stating the
limit, the original item count and three remediation hints. -/
def trunc_notice (limit : Nat) (itemCount : Nat) : String :=
  "\n\n**TRUNCATED**: Response exceeded " ++ toString limit ++ " characters.\n"
  ++ "Showing partial results. Original had " ++ toString itemCount ++ " items.\n"
  ++ "To see more results:\n"
  ++ "- Use the \x27offset\x27 parameter for pagination\n"
  ++ "- Add more specific filters (countries, document_types, dates)\n"
  ++ "- Reduce the \x27limit\x27 parameter\n"

/-- Model of Python slicing `s[:n]` (by code point, as Python slices by
character). -/
def pySlice (s : String) (n : Nat) : String :=
  String.mk (s.data.take n)

/-- Embedding of `truncate_if_needed` (core.py).  Every call site in the
repository uses the default limit `CHARACTER_LIMIT`; the limit is a
parameter here as in the source. -/
def truncate_if_needed (content : String) {α : Type} (data : List α)
    (limit : Nat) : String :=
  if content.length ≤ limit then content
  else pySlice content limit ++ trunc_notice limit data.length

-- ============================================================================
-- core.py: enums and input models (validation bounds live in the pydantic
-- layer and are not modelled; field types and defaults are)
-- ============================================================================

inductive ResponseFormat where
  | markdown
  | json
deriving DecidableEq

inductive SortOrder where
  | asc
  | desc
deriving DecidableEq

def SortOrder.value : SortOrder → String
  | .asc => "asc"
  | .desc => "desc"

structure WorldBankSearchInput where
  query : String
  countries : Option (List String)
  document_types : Option (List String)
  languages : Option (List String)
  date_from : Option String
  date_to : Option String
  limit : Nat
  offset : Nat
  sort_by : Option String
  sort_order : SortOrder
  response_format : ResponseFormat

structure WorldBankDocumentDetailsInput where
  document_id : String
  response_format : ResponseFormat

structure WorldBankExploreFacetsInput where
  facets : List String
  query : Option String
  response_format : ResponseFormat

structure WorldBankProjectSearchInput where
  project_id : Option String
  project_name : Option String
  limit : Nat
  offset : Nat
  response_format : ResponseFormat

-- ============================================================================
-- factory.py: worldbank_search_documents
-- ============================================================================

/-- The fixed suggestions text returned by `worldbank_search_documents`
when the parsed total is zero (factory.py). -/
def noResultsSuggestions : String :=
  "No documents found matching your query.\n\n"
  ++ "Suggestions:\n"
  ++ "- Try broader search terms\n"
  ++ "- Remove some filters\n"
  ++ "- Check spelling of country names or document types\n"
  ++ "- Use the worldbank_explore_facets tool to see available filter values"

/-- The active-filter summary line of the search markdown output. -/
def searchFiltersLine (params : WorldBankSearchInput) : String :=
  let filters : List String :=
    (if optListTruthy params.countries
     then ["Countries: " ++ String.intercalate ", " (params.countries.getD [])] else [])
    ++ (if optListTruthy params.document_types
        then ["Types: " ++ String.intercalate ", " (params.document_types.getD [])] else [])
    ++ (if optListTruthy params.languages
        then ["Languages: " ++ String.intercalate ", " (params.languages.getD [])] else [])
    ++ (if optStrTruthy params.date_from || optStrTruthy params.date_to
        then ["Dates: " ++ pyOrStr params.date_from "any" ++ " to "
              ++ pyOrStr params.date_to "any"]
        else [])
  if !filters.isEmpty
  then "**Filters:** " ++ String.intercalate " | " filters ++ "\n"
  else ""

/-- Markdown assembly of the search results (factory.py, markdown branch,
before truncation). -/
def searchMarkdown (params : WorldBankSearchInput) (docs_list : List Json)
    (total : Json) : String :=
  let output := "# World Bank Document Search Results\n\n"
  let output := output ++ "**Query:** " ++ params.query ++ "\n"
  let output := output ++ "**Total Results:** " ++ pyCommaFmt total ++ "\n"
  let output := output ++ "**Showing:** " ++ toString (params.offset + 1) ++ "-"
    ++ toString (params.offset + docs_list.length) ++ " of " ++ pyCommaFmt total ++ "\n"
  let output := output ++ searchFiltersLine params
  let output := output ++ "\n---\n\n"
  let output := output ++ String.join (docs_list.map format_document_markdown)
  let output := if ((params.offset + docs_list.length : Int) < jAsInt total)
    then output ++ "\n**More results available.** Use offset="
      ++ toString (params.offset + docs_list.length) ++ " to see the next page.\n"
    else output
  output

def optListJson : Option (List String) → Json
  | none => Json.null
  | some l => Json.arr (l.map Json.str)

def optStrJson : Option String → Json
  | none => Json.null
  | some s => Json.str s

/-- The structured (JSON-branch) result object of the search tool
(factory.py), before serialization. -/
def searchResultJson (params : WorldBankSearchInput) (docs_list : List Json)
    (total : Json) : Json :=
  let has_more := ((params.offset + docs_list.length : Int) < jAsInt total)
  Json.obj
    [("query", Json.str params.query),
     ("total", total),
     ("count", Json.num docs_list.length),
     ("offset", Json.num params.offset),
     ("limit", Json.num params.limit),
     ("has_more", Json.bool has_more),
     ("next_offset", if has_more then Json.num (params.offset + docs_list.length)
                     else Json.null),
     ("filters", Json.obj
       [("countries", optListJson params.countries),
        ("document_types", optListJson params.document_types),
        ("languages", optListJson params.languages),
        ("date_from", optStrJson params.date_from),
        ("date_to", optStrJson params.date_to)]),
     ("documents", Json.arr (docs_list.map (fun d => Json.obj (format_document_json d))))]

/-- Embedding of the body of `worldbank_search_documents` (factory.py) from
the point where the transport parser has produced `(docs_list, total)`:
the zero-total branch, then the output-mode branch, each search branch
ending in `truncate_if_needed`. -/
def worldbank_search_documents_render (params : WorldBankSearchInput)
    (docs_list : List Json) (total : Json) : String :=
  if jEqZero total then noResultsSuggestions
  else match params.response_format with
    | .markdown =>
        truncate_if_needed (searchMarkdown params docs_list total) docs_list CHARACTER_LIMIT
    | .json =>
        truncate_if_needed (jsonDumps 0 (searchResultJson params docs_list total))
          docs_list CHARACTER_LIMIT

-- ============================================================================
-- factory.py: worldbank_get_document_details
-- ============================================================================

/-- The not-found message of `worldbank_get_document_details` (factory.py). -/
def docNotFoundMessage (document_id : String) : String :=
  "Document with ID \x27" ++ document_id ++ "\x27 not found.\n\n"
  ++ "This could mean:\n"
  ++ "- The document ID is incorrect\n"
  ++ "- The document has been removed from the database\n"
  ++ "- The ID format is invalid\n\n"
  ++ "Try using worldbank_search_documents to find the correct document ID."

/-- Markdown assembly of the details output for the first returned record
(factory.py, markdown branch).  No truncation is applied in this tool. -/
def detailsMarkdown (doc : Json) : String :=
  let output := "# World Bank Document Details\n\n"
  let output := output ++ format_document_markdown doc
  let output := if pyTruthy (jget doc "keywd" Json.null)
    then output ++ "\n**Keywords:** " ++ pyJoinList ", " (jget doc "keywd" Json.null) ++ "\n"
    else output
  let output := if pyTruthy (jget doc "authr" Json.null)
    then output ++ "**Authors:** " ++ pyJoinList ", " (jget doc "authr" Json.null) ++ "\n"
    else output
  let output := if pyTruthy (jget doc "sectr_exact" Json.null)
    then output ++ "**Sectors:** " ++ pyJoinList ", " (jget doc "sectr_exact" Json.null) ++ "\n"
    else output
  let output := if pyTruthy (jget doc "topic" Json.null)
    then output ++ "**Topics:** " ++ pyJoinList ", " (jget doc "topic" Json.null) ++ "\n"
    else output
  output

/-- Embedding of the body of `worldbank_get_document_details` (factory.py)
from the point where the transport parser has produced its pair; the
total component of the pair is discarded by the code
(`docs_list, _ = ...`), and neither output branch truncates. -/
def worldbank_get_document_details_render (params : WorldBankDocumentDetailsInput)
    (parsed : List Json × Json) : String :=
  match parsed.1 with
  | [] => docNotFoundMessage params.document_id
  | doc :: _ =>
      match params.response_format with
      | .markdown => detailsMarkdown doc
      | .json => jsonDumps 0 (Json.obj (format_document_json doc))

-- ============================================================================
-- factory.py: worldbank_explore_facets
-- ============================================================================

/-- The fixed message returned when the response carries no (truthy) facet
data (factory.py). -/
def noFacetDataMessage : String :=
  "No facet data available.\n\n"
  ++ "This could mean:\n"
  ++ "- The requested facets don\x27t exist\n"
  ++ "- The query returned no matching documents\n\n"
  ++ "Common facet names:\n"
  ++ "- count_exact (countries)\n"
  ++ "- lang_exact (languages)\n"
  ++ "- docty_exact (document types)\n"
  ++ "- majtheme_exact (major themes)\n"
  ++ "- topic_exact (topics)"

/-- The pairing loop of `worldbank_explore_facets` (factory.py): the flat
alternating value/count sequence is paired up, a trailing unmatched value
being dropped (`if i + 1 < len(facet_values)`). -/
def pairUp : List Json → List (Json × Json)
  | a :: b :: rest => (a, b) :: pairUp rest
  | _ => []

/-- Stable insertion of one element into a list sorted descending by
`key` (helper for `pySortByKeyDesc`). -/
def sortInsertDesc {α : Type} (key : α → Int) (x : α) : List α → List α
  | [] => [x]
  | y :: ys => if key y ≤ key x then x :: y :: ys else y :: sortInsertDesc key x ys

/-- Model of Python `list.sort(key=..., reverse=True)`: the stable
descending-by-key reordering (Python guarantees stability also under
`reverse=True`), realised as an insertion sort. -/
def pySortByKeyDesc {α : Type} (key : α → Int) : List α → List α
  | [] => []
  | x :: xs => sortInsertDesc key x (pySortByKeyDesc key xs)

/-- The value/count pair list of one facet after pairing and sorting, as
computed by both output branches of `worldbank_explore_facets`. -/
def facetPairsSorted (facet_values : List Json) : List (Json × Json) :=
  pySortByKeyDesc (fun p => jAsInt p.2) (pairUp facet_values)

/-- One displayed facet line of the markdown branch
(`f"- **X**: N documents"` with a thousands-separated count). -/
def facetLineMarkdown (p : Json × Json) : String :=
  "- **" ++ pyStr p.1 ++ "**: " ++ pyCommaFmt p.2 ++ " documents\n"

/-- One per-facet section of the markdown branch of
`worldbank_explore_facets` (factory.py): absent facets render the
explicit no-data marker; present ones are paired, sorted descending, the
displayed pairs capped at 50 with a notice when more exist. -/
def facet_section_markdown (facet_data : List (String × Json))
    (facet_name : String) : String :=
  match jlookup facet_data facet_name with
  | none => "## " ++ facet_name ++ "\n\n*No data available*\n\n"
  | some fv =>
      let facet_pairs := facetPairsSorted (jItems fv)
      "## " ++ facet_name ++ "\n\n"
      ++ "Total unique values: " ++ toString facet_pairs.length ++ "\n\n"
      ++ String.join ((facet_pairs.take 50).map facetLineMarkdown)
      ++ (if 50 < facet_pairs.length
          then "\n*Showing top 50 of " ++ toString facet_pairs.length
            ++ " total values*\n"
          else "")
      ++ "\n"

/-- One facet entry of the structured branch of `worldbank_explore_facets`
(factory.py): absent facets map to the empty list; present ones are
paired into value/count objects and sorted descending by count, with no
cap. -/
def facet_entry_json (facet_data : List (String × Json))
    (facet_name : String) : Json :=
  match jlookup facet_data facet_name with
  | none => Json.arr []
  | some fv =>
      Json.arr (pySortByKeyDesc (fun j => jAsInt (jget j "count" Json.null))
        ((pairUp (jItems fv)).map
          (fun p => Json.obj [("value", p.1), ("count", p.2)])))

/-- The structured result object of `worldbank_explore_facets`
(factory.py): the per-facet mapping, plus a `query` echo appended after it
when a query was given. -/
def facetsResultJson (params : WorldBankExploreFacetsInput)
    (facet_data : Json) : Json :=
  Json.obj
    ([("facets", Json.obj (params.facets.map
        (fun n => (n, facet_entry_json (jFields facet_data) n))))]
     ++ (if optStrTruthy params.query
         then [("query", Json.str (params.query.getD ""))] else []))

/-- Embedding of the body of `worldbank_explore_facets` (factory.py) from
the point where the HTTP response is available: `facet_data` is read from
the response, a falsy value yields the fixed no-data message, and neither
output branch truncates. -/
def worldbank_explore_facets_render (params : WorldBankExploreFacetsInput)
    (response : List (String × Json)) : String :=
  let facet_data := pyDictGet response "facets" (Json.obj [])
  if !(pyTruthy facet_data) then noFacetDataMessage
  else match params.response_format with
    | .markdown =>
        "# World Bank Document Facets\n\n"
        ++ (if optStrTruthy params.query
            then "**Filtered by query:** " ++ params.query.getD "" ++ "\n\n" else "")
        ++ String.join (params.facets.map (facet_section_markdown (jFields facet_data)))
    | .json => jsonDumps 0 (facetsResultJson params facet_data)

-- ============================================================================
-- factory.py: worldbank_search_by_project
-- ============================================================================

/-- The usage-error string of `worldbank_search_by_project` when both
project identifiers are absent (factory.py). -/
def projectUsageError : String :=
  "Error: Either project_id or project_name must be provided.\n\n"
  ++ "Examples:\n"
  ++ "- project_id=\x27P123456\x27\n"
  ++ "- project_name=\x27Rural Education Project\x27\n"
  ++ "- Both can be provided for more specific search"

/-- Embedding of the request phase of `worldbank_search_by_project`
(factory.py): everything before the HTTP call.  The precondition check
precedes parameter construction, so `Except.error` means the usage-error
string is returned with no network call issued; `Except.ok` carries the
query parameters that would be sent. -/
def worldbank_search_by_project_request (params : WorldBankProjectSearchInput) :
    Except String (List (String × Json)) :=
  if !(optStrTruthy params.project_id) && !(optStrTruthy params.project_name)
  then Except.error projectUsageError
  else
    let query_params := build_query_params none none none none none none
      params.limit params.offset none none none []
    let query_params := if optStrTruthy params.project_id
      then query_params ++ [("proid", Json.str (params.project_id.getD ""))]
      else query_params
    let query_params := if optStrTruthy params.project_name
      then query_params ++ [("projn", Json.str (params.project_name.getD ""))]
      else query_params
    Except.ok query_params

/-- The zero-total message of `worldbank_search_by_project` (factory.py). -/
def projectZeroMessage (search_term : String) : String :=
  "No documents found for project: " ++ search_term ++ "\n\n"
  ++ "This could mean:\n"
  ++ "- The project ID or name is incorrect\n"
  ++ "- The project has no publicly available documents\n"
  ++ "- The project doesn\x27t exist in the database\n\n"
  ++ "Try:\n"
  ++ "- Check the project ID format (usually P followed by numbers)\n"
  ++ "- Search for the project by name using worldbank_search_documents\n"
  ++ "- Use broader search terms"

/-- Markdown assembly of the project-search results (factory.py, markdown
branch, before truncation). -/
def projectMarkdown (params : WorldBankProjectSearchInput)
    (docs_list : List Json) (total : Json) : String :=
  let output := "# World Bank Project Documents\n\n"
  let output := if optStrTruthy params.project_id
    then output ++ "**Project ID:** " ++ params.project_id.getD "" ++ "\n"
    else output
  let output := if optStrTruthy params.project_name
    then output ++ "**Project Name:** " ++ params.project_name.getD "" ++ "\n"
    else output
  let output := output ++ "**Total Documents:** " ++ pyCommaFmt total ++ "\n"
  let output := output ++ "**Showing:** " ++ toString (params.offset + 1) ++ "-"
    ++ toString (params.offset + docs_list.length) ++ " of " ++ pyCommaFmt total ++ "\n"
  let output := output ++ "\n---\n\n"
  let output := output ++ String.join (docs_list.map format_document_markdown)
  let output := if ((params.offset + docs_list.length : Int) < jAsInt total)
    then output ++ "\n**More results available.** Use offset="
      ++ toString (params.offset + docs_list.length) ++ " to see the next page.\n"
    else output
  output

/-- The structured result object of `worldbank_search_by_project`
(factory.py), before serialization. -/
def projectResultJson (params : WorldBankProjectSearchInput)
    (docs_list : List Json) (total : Json) : Json :=
  let has_more := ((params.offset + docs_list.length : Int) < jAsInt total)
  Json.obj
    [("project_id", optStrJson params.project_id),
     ("project_name", optStrJson params.project_name),
     ("total", total),
     ("count", Json.num docs_list.length),
     ("offset", Json.num params.offset),
     ("limit", Json.num params.limit),
     ("has_more", Json.bool has_more),
     ("next_offset", if has_more then Json.num (params.offset + docs_list.length)
                     else Json.null),
     ("documents", Json.arr (docs_list.map (fun d => Json.obj (format_document_json d))))]

/-- Embedding of the body of `worldbank_search_by_project` (factory.py)
from the point where the transport parser has produced `(docs_list,
total)`: the zero-total branch, then the output-mode branch, each search
branch ending in `truncate_if_needed`. -/
def worldbank_search_by_project_render (params : WorldBankProjectSearchInput)
    (docs_list : List Json) (total : Json) : String :=
  if jEqZero total
  then projectZeroMessage (pyOrOpt params.project_id params.project_name)
  else match params.response_format with
    | .markdown =>
        truncate_if_needed (projectMarkdown params docs_list total) docs_list CHARACTER_LIMIT
    | .json =>
        truncate_if_needed (jsonDumps 0 (projectResultJson params docs_list total))
          docs_list CHARACTER_LIMIT

-- ============================================================================
-- Helper lemmas
-- ============================================================================

theorem pySlice_length_le (s : String) (n : Nat) : (pySlice s n).length ≤ n := by
  show (s.data.take n).length ≤ n
  exact List.length_take_le n s.data

/-- Shared bound: the truncation post-process never returns more than the
ceiling plus the appended notice. -/
theorem truncate_if_needed_length_le (content : String) {α : Type} (data : List α) :
    (truncate_if_needed content data CHARACTER_LIMIT).length
      ≤ CHARACTER_LIMIT + (trunc_notice CHARACTER_LIMIT data.length).length := by
  unfold truncate_if_needed
  split
  · exact le_trans (by assumption) (Nat.le_add_right _ _)
  · rw [String.length_append]
    have h := pySlice_length_le content CHARACTER_LIMIT
    omega

theorem beq_false_of_length_ne (s t : String) (h : s.length ≠ t.length) :
    (s == t) = false := by
  cases hb : s == t
  · rfl
  · exact absurd (congrArg String.length (eq_of_beq hb)) h

/-- A 25 001-character string, used to exhibit outputs that exceed the
character ceiling. -/
def bigStr : String := String.mk (List.replicate 25001 'a')

theorem bigStr_length : bigStr.length = 25001 := by
  show (List.replicate 25001 'a').length = 25001
  exact List.length_replicate 25001 'a'

-- ============================================================================
-- Claim theorems
-- ============================================================================

/-- Claim C1: for every content string and every data list, the truncation
post-process returns a string of length at most the 25 000-character
ceiling plus the length of the appended truncation notice; content within
the ceiling is returned unchanged, and content exceeding it is hard-cut at
25 000 characters and followed by the notice stating the original item
count and the three remediation hints. -/
theorem truncate_if_needed_spec (content : String) (data : List Json) :
    (truncate_if_needed content data CHARACTER_LIMIT).length
      ≤ CHARACTER_LIMIT + (trunc_notice CHARACTER_LIMIT data.length).length
    ∧ (content.length ≤ CHARACTER_LIMIT →
        truncate_if_needed content data CHARACTER_LIMIT = content)
    ∧ (CHARACTER_LIMIT < content.length →
        truncate_if_needed content data CHARACTER_LIMIT
          = pySlice content CHARACTER_LIMIT
            ++ trunc_notice CHARACTER_LIMIT data.length) := by
  refine ⟨truncate_if_needed_length_le content data, ?_, ?_⟩
  · intro h
    simp [truncate_if_needed, h]
  · intro h
    simp [truncate_if_needed, Nat.not_le.mpr h]

theorem truncate_if_needed_spec_witness :
    truncate_if_needed "short content" ([] : List Json) CHARACTER_LIMIT
      = "short content" :=
  (truncate_if_needed_spec "short content" []).2.1 (by decide)

/-- Claim C2: whenever the parsed total is zero, `worldbank_search_documents`
returns the fixed suggestions text rather than an assembled result block. -/
theorem search_documents_zero_total (params : WorldBankSearchInput)
    (docs_list : List Json) (total : Json) (h : total = Json.num 0) :
    worldbank_search_documents_render params docs_list total
      = noResultsSuggestions := by
  subst h
  simp [worldbank_search_documents_render, jEqZero]

theorem search_documents_zero_total_witness :
    worldbank_search_documents_render
      ⟨"climate change", none, none, none, none, none, 20, 0, some "docdt",
       SortOrder.desc, ResponseFormat.markdown⟩
      [] (Json.num 0) = noResultsSuggestions :=
  search_documents_zero_total _ [] _ rfl

/-- Claim C3: parsing a Shape-A envelope whose documents mapping holds two
document entries plus a `facets` entry, with top-level total 2, yields
exactly the two document records (the `facets` entry excluded) and
total 2. -/
theorem parse_stdio_shapeA_two_docs (k₁ k₂ : String) (d₁ d₂ f : Json)
    (h₁ : k₁ ≠ "facets") (h₂ : k₂ ≠ "facets")
    (hd₁ : d₁.isObj = true) (hd₂ : d₂.isObj = true) :
    parse_stdio_response
      [("documents", Json.obj [(k₁, d₁), (k₂, d₂), ("facets", f)]),
       ("total", Json.num 2)]
      = some ([d₁, d₂], Json.num 2) := by
  have e₁ : (k₁ == "facets") = false := beq_eq_false_iff_ne.mpr h₁
  have e₂ : (k₂ == "facets") = false := beq_eq_false_iff_ne.mpr h₂
  simp [parse_stdio_response, pyDictGet, jlookup, List.filter, e₁, e₂, hd₁, hd₂]

theorem parse_stdio_shapeA_two_docs_witness :
    parse_stdio_response
      [("documents", Json.obj
         [("d1", Json.obj [("id", Json.str "d1")]),
          ("d2", Json.obj [("id", Json.str "d2")]),
          ("facets", Json.obj [("count_exact", Json.arr [])])]),
       ("total", Json.num 2)]
      = some ([Json.obj [("id", Json.str "d1")],
               Json.obj [("id", Json.str "d2")]], Json.num 2) :=
  parse_stdio_shapeA_two_docs "d1" "d2" _ _ _
    (by decide) (by decide) rfl rfl

/-- Claim C4 counterexample: a Shape-A response whose documents mapping is
empty but whose top-level `total` field is 5 parses to an empty list with
total 5, not total 0 — refuting the claim that both parsers return the
pair (empty list, 0) on every response with a missing or empty documents
collection. -/
theorem parse_empty_documents_counterexample :
    parse_stdio_response [("documents", Json.obj []), ("total", Json.num 5)]
      ≠ some ([], Json.num 0) := by
  simp [parse_stdio_response, pyDictGet, jlookup]

/-- Claim C4 (amended): for every response whose documents collection is
missing or empty, each parser succeeds with an empty document list; the
Shape-B parser reports total 0, while the Shape-A parser reports the
value of the top-level `total` field, which is 0 when that field is
absent. -/
theorem parse_empty_documents_amended (response : List (String × Json))
    (h : jlookup response "documents" = none
       ∨ jlookup response "documents" = some (Json.obj [])) :
    parse_stdio_response response
      = some ([], pyDictGet response "total" (Json.num 0))
    ∧ parse_sse_response response = some ([], Json.num 0) := by
  rcases h with h | h <;>
    simp [parse_stdio_response, parse_sse_response, pyDictGet, h, jlookup]

theorem parse_empty_documents_amended_witness :
    parse_stdio_response [("total", Json.num 7)] = some ([], Json.num 7)
    ∧ parse_sse_response [("total", Json.num 7)] = some ([], Json.num 0) := by
  have h := parse_empty_documents_amended [("total", Json.num 7)] (Or.inl rfl)
  simpa [pyDictGet, jlookup] using h

/-- Claim C5: the structured renderer is total and returns every declared
key for every document record; on a record missing every optional field
the values are the empty list for list-typed fields and null for scalar
fields. -/
theorem format_document_json_total_keys :
    (∀ doc, (format_document_json doc).map Prod.fst
      = ["id", "title", "report_number", "document_type", "document_date",
         "countries", "languages", "abstract", "major_themes", "topics",
         "pdf_url", "url", "project_id", "project_name", "sectors",
         "keywords", "authors"])
    ∧ format_document_json (Json.obj [])
      = [("id", Json.null), ("title", Json.null), ("report_number", Json.null),
         ("document_type", Json.null), ("document_date", Json.null),
         ("countries", Json.arr []), ("languages", Json.arr []),
         ("abstract", Json.null), ("major_themes", Json.arr []),
         ("topics", Json.arr []), ("pdf_url", Json.null), ("url", Json.null),
         ("project_id", Json.null), ("project_name", Json.null),
         ("sectors", Json.arr []), ("keywords", Json.arr []),
         ("authors", Json.arr [])] :=
  ⟨fun _ => rfl, rfl⟩

/-- Claim C6: whenever the parsed document list is empty,
`worldbank_get_document_details` returns the not-found message with
remediation hints, regardless of the total component of the parsed pair
(which the code discards). -/
theorem get_document_details_not_found (params : WorldBankDocumentDetailsInput)
    (parsed : List Json × Json) (h : parsed.1 = []) :
    worldbank_get_document_details_render params parsed
      = docNotFoundMessage params.document_id := by
  obtain ⟨docs, total⟩ := parsed
  simp only at h
  subst h
  rfl

theorem get_document_details_not_found_witness :
    worldbank_get_document_details_render
      ⟨"000333037_20150825102649", ResponseFormat.markdown⟩
      ([], Json.num 99)
      = docNotFoundMessage "000333037_20150825102649" :=
  get_document_details_not_found _ _ rfl

/-- Claim C7: with both project identifiers absent (or empty, which Python
truthiness treats as absent), the request phase of
`worldbank_search_by_project` short-circuits to the usage-error string
before any network interaction; with at least one present the error
branch is not taken. -/
theorem search_by_project_precondition (params : WorldBankProjectSearchInput) :
    (optStrTruthy params.project_id = false →
     optStrTruthy params.project_name = false →
      worldbank_search_by_project_request params = Except.error projectUsageError)
    ∧ ((optStrTruthy params.project_id || optStrTruthy params.project_name) = true →
      (worldbank_search_by_project_request params).isOk = true) := by
  constructor
  · intro h1 h2
    simp [worldbank_search_by_project_request, h1, h2]
  · intro h
    cases ha : optStrTruthy params.project_id <;>
      cases hb : optStrTruthy params.project_name <;>
        simp_all [worldbank_search_by_project_request, Except.isOk, Except.toBool]

theorem search_by_project_precondition_witness :
    worldbank_search_by_project_request
      ⟨none, none, 20, 0, ResponseFormat.markdown⟩
      = Except.error projectUsageError
    ∧ (worldbank_search_by_project_request
        ⟨some "P123456", none, 20, 0, ResponseFormat.markdown⟩).isOk = true :=
  ⟨(search_by_project_precondition _).1 rfl rfl,
   (search_by_project_precondition _).2 (by decide)⟩

theorem sortInsertDesc_map {α β : Type} (f : α → β) (k₁ : α → Int) (k₂ : β → Int)
    (hk : ∀ x, k₂ (f x) = k₁ x) (x : α) (l : List α) :
    sortInsertDesc k₂ (f x) (l.map f) = (sortInsertDesc k₁ x l).map f := by
  induction l with
  | nil => rfl
  | cons y ys ih =>
      simp only [List.map_cons, sortInsertDesc, hk]
      split
      · simp
      · simp [ih]

theorem pySortByKeyDesc_map {α β : Type} (f : α → β) (k₁ : α → Int) (k₂ : β → Int)
    (hk : ∀ x, k₂ (f x) = k₁ x) (l : List α) :
    pySortByKeyDesc k₂ (l.map f) = (pySortByKeyDesc k₁ l).map f := by
  induction l with
  | nil => rfl
  | cons x xs ih =>
      simp only [List.map_cons, pySortByKeyDesc, ih]
      exact sortInsertDesc_map f k₁ k₂ hk x (pySortByKeyDesc k₁ xs)

/-- Claim C8: the flat alternating value/count sequence of each requested
facet is paired up and sorted by count descending — on `["A", 3, "B", 7]` this
yields `[("B", 7), ("A", 3)]` — the markdown branch displaying the pairs
capped at 50 with a notice when more exist, and the structured branch
returning the full sorted pair list uncapped (in the same order as the
markdown pairs). -/
theorem explore_facets_pairs_sorted :
    facetPairsSorted [Json.str "A", Json.num 3, Json.str "B", Json.num 7]
      = [(Json.str "B", Json.num 7), (Json.str "A", Json.num 3)]
    ∧ (∀ facet_data facet_name fv, jlookup facet_data facet_name = some fv →
        facet_entry_json facet_data facet_name
          = Json.arr ((facetPairsSorted (jItems fv)).map
              (fun p => Json.obj [("value", p.1), ("count", p.2)])))
    ∧ (∀ facet_data facet_name fv, jlookup facet_data facet_name = some fv →
        facet_section_markdown facet_data facet_name
          = "## " ++ facet_name ++ "\n\n"
            ++ "Total unique values: "
            ++ toString (facetPairsSorted (jItems fv)).length ++ "\n\n"
            ++ String.join (((facetPairsSorted (jItems fv)).take 50).map facetLineMarkdown)
            ++ (if 50 < (facetPairsSorted (jItems fv)).length
                then "\n*Showing top 50 of "
                  ++ toString (facetPairsSorted (jItems fv)).length
                  ++ " total values*\n"
                else "")
            ++ "\n") := by
  refine ⟨rfl, ?_, ?_⟩
  · intro facet_data facet_name fv h
    simp only [facet_entry_json, h, facetPairsSorted]
    exact congrArg Json.arr
      (pySortByKeyDesc_map (fun p => Json.obj [("value", p.1), ("count", p.2)])
        (fun p => jAsInt p.2)
        (fun j => jAsInt (jget j "count" Json.null))
        (fun x => rfl) (pairUp (jItems fv)))
  · intro facet_data facet_name fv h
    simp [facet_section_markdown, h]

theorem explore_facets_pairs_sorted_witness :
    facet_entry_json
      [("lang_exact", Json.arr [Json.str "A", Json.num 3, Json.str "B", Json.num 7])]
      "lang_exact"
      = Json.arr [Json.obj [("value", Json.str "B"), ("count", Json.num 7)],
                  Json.obj [("value", Json.str "A"), ("count", Json.num 3)]] :=
  (explore_facets_pairs_sorted.2.1
    [("lang_exact", Json.arr [Json.str "A", Json.num 3, Json.str "B", Json.num 7])]
    "lang_exact"
    (Json.arr [Json.str "A", Json.num 3, Json.str "B", Json.num 7]) rfl).trans rfl

theorem jlookup_filter_of_none (p : String × Json → Bool)
    (l : List (String × Json)) (k : String) (h : jlookup l k = none) :
    jlookup (l.filter p) k = none := by
  induction l with
  | nil => rfl
  | cons kv rest ih =>
      obtain ⟨k₀, v₀⟩ := kv
      by_cases hk₀ : k₀ = k
      · subst hk₀
        simp [jlookup] at h
      · have h' : jlookup rest k = none := by simpa [jlookup, hk₀] using h
        cases hp : p (k₀, v₀) <;> simp [List.filter, hp, jlookup, hk₀, ih h']

theorem jlookup_append_of_none (l₁ l₂ : List (String × Json)) (k : String)
    (h : jlookup l₁ k = none) : jlookup (l₁ ++ l₂) k = jlookup l₂ k := by
  induction l₁ with
  | nil => rfl
  | cons kv rest ih =>
      obtain ⟨k₀, v₀⟩ := kv
      by_cases hk₀ : k₀ = k
      · subst hk₀
        simp [jlookup] at h
      · have h' : jlookup rest k = none := by simpa [jlookup, hk₀] using h
        simp [jlookup, hk₀, ih h']

theorem jlookup_append_of_some (l₁ l₂ : List (String × Json)) (k : String)
    (v : Json) (h : jlookup l₁ k = some v) :
    jlookup (l₁ ++ l₂) k = some v := by
  induction l₁ with
  | nil => simp [jlookup] at h
  | cons kv rest ih =>
      obtain ⟨k₀, v₀⟩ := kv
      by_cases hk₀ : k₀ = k
      · subst hk₀
        have hv : v₀ = v := by simpa [jlookup] using h
        simp [jlookup, hv]
      · have h' : jlookup rest k = some v := by simpa [jlookup, hk₀] using h
        simp [jlookup, hk₀, ih h']

theorem jlookup_map_update (base kwargs : List (String × Json)) (k : String)
    (hk : jlookup kwargs k = none) :
    jlookup (base.map (fun kv => match jlookup kwargs kv.1 with
      | some v => (kv.1, v)
      | none => kv)) k = jlookup base k := by
  induction base with
  | nil => rfl
  | cons kv rest ih =>
      obtain ⟨k₀, v₀⟩ := kv
      by_cases hk₀ : k₀ = k
      · subst hk₀
        simp [jlookup, hk]
      · cases hmatch : jlookup kwargs k₀ <;> simp [jlookup, hk₀, ih, hmatch]

/-- Updating with a mapping that lacks key `k` does not change the lookup
of `k` (the `params.update(kwargs)` step of `build_query_params`). -/
theorem jlookup_pyUpdate_of_none (base kwargs : List (String × Json)) (k : String)
    (hk : jlookup kwargs k = none) :
    jlookup (pyUpdate base kwargs) k = jlookup base k := by
  unfold pyUpdate
  cases hbase : jlookup base k with
  | some v =>
      exact jlookup_append_of_some _ _ k v
        ((jlookup_map_update base kwargs k hk).trans hbase)
  | none =>
      rw [jlookup_append_of_none _ _ k
        ((jlookup_map_update base kwargs k hk).trans hbase)]
      exact jlookup_filter_of_none _ kwargs k hk

theorem jlookup_ite_none (c : Prop) [Decidable c]
    (l₁ l₂ : List (String × Json)) (k : String)
    (h₁ : jlookup l₁ k = none) (h₂ : jlookup l₂ k = none) :
    jlookup (if c then l₁ else l₂) k = none := by
  split <;> assumption

/-- Claim C9: `build_query_params` maps a non-empty country list to the
single query value joining the names with the caret separator, and omits
the `count_exact` key entirely when the list is empty or absent (provided
the ad-hoc `kwargs` mapping does not itself inject that key, as no call
site does). -/
theorem build_query_params_countries_join
    (query : Option String) (document_types languages : Option (List String))
    (date_from date_to : Option String) (limit offset : Nat)
    (sort_by sort_order : Option String) (facets : Option (List String))
    (kwargs : List (String × Json))
    (hk : jlookup kwargs "count_exact" = none) :
    (∀ cs : List String, cs ≠ [] →
      jlookup (build_query_params query (some cs) document_types languages
        date_from date_to limit offset sort_by sort_order facets kwargs)
        "count_exact"
        = some (Json.str (String.intercalate "^" cs)))
    ∧ (∀ copt : Option (List String), optListTruthy copt = false →
      jlookup (build_query_params query copt document_types languages
        date_from date_to limit offset sort_by sort_order facets kwargs)
        "count_exact" = none) := by
  constructor
  · intro cs hcs
    obtain _ | ⟨c, cs'⟩ := cs
    · exact absurd rfl hcs
    · unfold build_query_params
      rw [jlookup_pyUpdate_of_none _ _ _ hk]
      simp only [List.append_assoc]
      rw [jlookup_append_of_none _ _ _ (by simp [jlookup])]
      rw [jlookup_append_of_none _ _ _
        (jlookup_ite_none _ _ _ _ (by simp [jlookup]) (by simp [jlookup]))]
      rw [if_pos (show optListTruthy (some (c :: cs')) = true from rfl)]
      simp [jlookup]
  · intro copt hcopt
    unfold build_query_params
    rw [jlookup_pyUpdate_of_none _ _ _ hk]
    simp only [List.append_assoc]
    rw [jlookup_append_of_none _ _ _ (by simp [jlookup])]
    rw [jlookup_append_of_none _ _ _
      (jlookup_ite_none _ _ _ _ (by simp [jlookup]) (by simp [jlookup]))]
    rw [jlookup_append_of_none _ _ _ (by rw [if_neg (by simp [hcopt])]; rfl)]
    rw [jlookup_append_of_none _ _ _
      (jlookup_ite_none _ _ _ _ (by simp [jlookup]) (by simp [jlookup]))]
    rw [jlookup_append_of_none _ _ _
      (jlookup_ite_none _ _ _ _ (by simp [jlookup]) (by simp [jlookup]))]
    rw [jlookup_append_of_none _ _ _
      (jlookup_ite_none _ _ _ _ (by simp [jlookup]) (by simp [jlookup]))]
    rw [jlookup_append_of_none _ _ _
      (jlookup_ite_none _ _ _ _ (by simp [jlookup]) (by simp [jlookup]))]
    rw [jlookup_append_of_none _ _ _
      (jlookup_ite_none _ _ _ _ (by
        rw [jlookup_append_of_none _ _ _ (by simp [jlookup])]
        exact jlookup_ite_none _ _ _ _ (by simp [jlookup]) (by simp [jlookup])) (by simp [jlookup]))]
    exact jlookup_ite_none _ _ _ _ (by simp [jlookup]) (by simp [jlookup])

theorem build_query_params_countries_join_witness :
    jlookup (build_query_params none (some ["Kenya", "Brazil"]) none none none
      none 20 0 none none none []) "count_exact"
      = some (Json.str "Kenya^Brazil") := by
  have h := (build_query_params_countries_join none none none none none 20 0
    none none none [] rfl).1 ["Kenya", "Brazil"] (by decide)
  simpa using h

/-- A details page for a document whose abstract is `s` is at least as long
as `s`: no truncation can have been applied. -/
theorem details_abstract_dominates (s : String)
    (h1 : (s == "") = false) (h2 : (s == "No abstract available") = false) :
    s.length ≤ (worldbank_get_document_details_render
      ⟨"D1", ResponseFormat.markdown⟩
      ([Json.obj [("abstracts", Json.str s)]], Json.num 1)).length := by
  simp [worldbank_get_document_details_render, detailsMarkdown,
    format_document_markdown, jget, jget2, jlookup, pyTruthy, jEqStr, pyStr,
    pyJoinList, h1, h2, String.length_append]
  omega

/-- A facets page displaying a facet value `s` is at least as long as `s`:
no truncation can have been applied. -/
theorem facets_value_dominates (s : String) :
    s.length ≤ (worldbank_explore_facets_render
      ⟨["count_exact"], none, ResponseFormat.markdown⟩
      [("facets", Json.obj
        [("count_exact", Json.arr [Json.str s, Json.num 3])])]).length := by
  simp [worldbank_explore_facets_render, pyDictGet, jlookup, pyTruthy,
    facet_section_markdown, facetPairsSorted, pySortByKeyDesc, sortInsertDesc,
    pairUp, jItems, jFields, facetLineMarkdown, pyStr, pyCommaFmt, pyCommaInt,
    optStrTruthy, jAsInt, String.join, chunk3, String.length_append]
  omega

/-- Claim C10: `worldbank_get_document_details` and
`worldbank_explore_facets` never apply the output-size ceiling — for some
document record (respectively facet mapping) their returned string exceeds
25 000 characters — while every non-zero-result branch of
`worldbank_search_documents` and `worldbank_search_by_project` passes
through `truncate_if_needed` and hence respects the ceiling plus the
notice length. -/
theorem details_and_facets_never_truncated :
    (∃ parsed : List Json × Json,
      CHARACTER_LIMIT <
        (worldbank_get_document_details_render
          ⟨"D1", ResponseFormat.markdown⟩ parsed).length)
    ∧ (∃ response : List (String × Json),
      CHARACTER_LIMIT <
        (worldbank_explore_facets_render
          ⟨["count_exact"], none, ResponseFormat.markdown⟩ response).length)
    ∧ (∀ (params : WorldBankSearchInput) (docs_list : List Json) (total : Json),
        jEqZero total = false →
        (worldbank_search_documents_render params docs_list total).length
          ≤ CHARACTER_LIMIT + (trunc_notice CHARACTER_LIMIT docs_list.length).length)
    ∧ (∀ (params : WorldBankProjectSearchInput) (docs_list : List Json) (total : Json),
        jEqZero total = false →
        (worldbank_search_by_project_render params docs_list total).length
          ≤ CHARACTER_LIMIT + (trunc_notice CHARACTER_LIMIT docs_list.length).length) := by
  refine ⟨⟨([Json.obj [("abstracts", Json.str bigStr)]], Json.num 1), ?_⟩,
    ⟨[("facets", Json.obj [("count_exact", Json.arr [Json.str bigStr, Json.num 3])])], ?_⟩,
    ?_, ?_⟩
  · have hb1 : (bigStr == "") = false :=
      beq_false_of_length_ne _ _ (by rw [bigStr_length]; decide)
    have hb2 : (bigStr == "No abstract available") = false :=
      beq_false_of_length_ne _ _ (by rw [bigStr_length]; decide)
    have h := details_abstract_dominates bigStr hb1 hb2
    have hlen := bigStr_length
    unfold CHARACTER_LIMIT
    omega
  · have h := facets_value_dominates bigStr
    have hlen := bigStr_length
    unfold CHARACTER_LIMIT
    omega
  · intro params docs_list total h
    obtain ⟨q, cs, dts, ls, df, dto, lim, off, sb, so, rf⟩ := params
    cases rf
    all_goals
      unfold worldbank_search_documents_render
      rw [if_neg (by simp [h])]
      exact truncate_if_needed_length_le _ _
  · intro params docs_list total h
    obtain ⟨pid, pn, lim, off, rf⟩ := params
    cases rf
    all_goals
      unfold worldbank_search_by_project_render
      rw [if_neg (by simp [h])]
      exact truncate_if_needed_length_le _ _

theorem details_and_facets_never_truncated_witness :
    (worldbank_search_documents_render
      ⟨"education", none, none, none, none, none, 20, 0, some "docdt",
       SortOrder.desc, ResponseFormat.markdown⟩
      [] (Json.num 1)).length
      ≤ CHARACTER_LIMIT + (trunc_notice CHARACTER_LIMIT ([] : List Json).length).length :=
  details_and_facets_never_truncated.2.2.1 _ [] (Json.num 1) (by decide)
